import Mathlib

/-!
Verification of `docx_to_mindmap.py` (documents2mindmap repository).

The Python source is shallowly embedded below.  Python strings are modelled
as `List Char` (one entry per code point, matching Python's `len` and
slicing semantics); Python `None`-able values as `Option`; Python
exceptions of external library calls as `Except` parameters; the remote
chat-completion service as an oracle function `Str → Str`; and the
side-effecting `main` as a function producing an explicit effect trace.
-/

namespace DocxToMindmap

/-- Python strings, one entry per code point. -/
abbrev Str := List Char

/-- Whitespace characters removed by Python `str.strip()` (the ASCII
whitespace set; the inputs of interest contain no further Unicode
whitespace). -/
def isPyWS (c : Char) : Bool :=
  c == ' ' || c == '\t' || c == '\n' || c == '\r' || c == '\x0b' || c == '\x0c'

/-- Python `str.strip()`: removes leading and trailing whitespace. -/
def pyStrip (s : Str) : Str :=
  ((s.dropWhile isPyWS).reverse.dropWhile isPyWS).reverse

/-- Python `str.split('\n')`: splits on every newline; the empty string
yields `[""]`. -/
def splitLines : Str → List Str
  | [] => [[]]
  | c :: rest =>
      if c = '\n' then [] :: splitLines rest
      else
        match splitLines rest with
        | [] => [[c]]
        | l :: ls => (c :: l) :: ls

/-- Python `"\n".join(ls)`. -/
def joinLines : List Str → Str
  | [] => []
  | [l] => l
  | l :: ls => l ++ '\n' :: joinLines ls

/-- Python `sep.join(ls)` for an arbitrary separator. -/
def joinWith (sep : Str) : List Str → Str
  | [] => []
  | [l] => l
  | l :: ls => l ++ sep ++ joinWith sep ls

/-- Python truthiness of an `Optional[str]`: `None` and `""` are falsy. -/
def optStrTruthy : Option Str → Bool
  | none => false
  | some s => decide (s ≠ [])

/-- A Python exception value (identified by its message). -/
inductive PyExc where
  | exc (msg : Str)
deriving DecidableEq

/-! ## Document Reader (`extract_docx_text`, source lines 15-49)

A Word document as seen through `python-docx`: `doc.paragraphs` is the
ordered list of paragraph texts (`para.text`), and `doc.tables` the ordered
list of tables, each a list of rows, each a list of cell texts
(`cell.text`).  Note that `python-docx` joins the paragraphs of a
multi-paragraph cell with `'\n'`, so a cell text (and, via explicit line
breaks, a paragraph text) may itself contain newline characters. -/

structure DocxDocument where
  paragraphs : List Str
  tables : List (List (List Str))

/-- Stripped non-empty paragraph texts of a document, in document order
(the contents of `text_content` after the paragraph loop). -/
def keptParagraphs (doc : DocxDocument) : List Str :=
  (doc.paragraphs.map pyStrip).filter (fun t => decide (t ≠ []))

/-- Stripped non-empty table cell texts, in table/row/cell order
(the contents appended to `text_content` by the table loop). -/
def keptCells (doc : DocxDocument) : List Str :=
  (((doc.tables.flatMap (fun table => table.flatMap (fun row => row))).map pyStrip).filter
    (fun t => decide (t ≠ [])))

/-- `extract_docx_text`: strips every paragraph text, keeping the non-empty
ones, then strips every table cell text (tables, then rows, then cells),
keeping the non-empty ones, and joins everything with `"\n"`. -/
def extract_docx_text (doc : DocxDocument) : Str :=
  joinLines (keptParagraphs doc ++ keptCells doc)

/-- The non-empty lines of a string (after splitting on `'\n'`). -/
def nonEmptyLines (s : Str) : List Str :=
  (splitLines s).filter (fun l => decide (l ≠ []))

/-! ## Heuristic fallback (`generate_simple_mindmap`, source lines 259-282) -/

/-- Characters matched by the class `[一二三四五六七八九十\d]` (with `\d`
restricted to the decimal digits appearing in the inputs of interest). -/
def isChapterNumChar (c : Char) : Bool :=
  c == '一' || c == '二' || c == '三' || c == '四' || c == '五' ||
  c == '六' || c == '七' || c == '八' || c == '九' || c == '十' || c.isDigit

/-- Python `re.match(r'^第[一二三四五六七八九十\d]+[章节]', line)` viewed as a
Boolean: the line starts with `'第'`, then one or more class characters,
then `'章'` or `'节'`.  (The suffix characters are not in the class, so the
greedy match needs no backtracking.) -/
def matchesChapterSection (l : Str) : Bool :=
  match l with
  | [] => false
  | c :: rest =>
      c == '第' && !(rest.takeWhile isChapterNumChar).isEmpty &&
        (match rest.dropWhile isChapterNumChar with
         | c2 :: _ => c2 == '章' || c2 == '节'
         | [] => false)

/-- Python `re.match(r'^\d+[\.\、]', line)` viewed as a Boolean: one or more
digits, then `'.'` or `'、'`. -/
def matchesNumbered (l : Str) : Bool :=
  !(l.takeWhile Char.isDigit).isEmpty &&
    (match l.dropWhile Char.isDigit with
     | c :: _ => c == '.' || c == '、'
     | [] => false)

/-- The `"## "` marker put before detected chapter lines. -/
def headingMark : Str := ['#', '#', ' ']

/-- The `"- "` marker put before bullet lines. -/
def bulletMark : Str := ['-', ' ']

/-- What one iteration of the `for line in lines[:500]` loop appends to
`mindmap`: after stripping, an empty line appends nothing; a line matching
one of the chapter patterns appends a `"## "` heading when shorter than 50
characters and nothing otherwise; any other line appends a `"- "` bullet
when `current_section` is truthy and the line is shorter than 100
characters. -/
def emitLine (cur : Option Str) (raw : Str) : List Str :=
  let line := pyStrip raw
  if line = [] then []
  else if matchesChapterSection line || matchesNumbered line then
    if line.length < 50 then [headingMark ++ line] else []
  else if optStrTruthy cur && decide (line.length < 100) then [bulletMark ++ line]
  else []

/-- How one iteration of the loop updates `current_section`: it becomes the
stripped line exactly when a heading is emitted. -/
def stepCurrent (cur : Option Str) (raw : Str) : Option Str :=
  let line := pyStrip raw
  if line = [] then cur
  else if matchesChapterSection line || matchesNumbered line then
    if line.length < 50 then some line else cur
  else cur

/-- The lines appended to `mindmap` by the whole loop, starting from a given
`current_section`. -/
def simpleBody : List Str → Option Str → List Str
  | [], _ => []
  | raw :: rest, cur => emitLine cur raw ++ simpleBody rest (stepCurrent cur raw)

/-- The value of `current_section` after processing a list of lines. -/
def currentAfter (ls : List Str) (cur : Option Str) : Option Str :=
  ls.foldl stepCurrent cur

/-- The lines the heuristic actually scans: `lines[:500]` of
`pdf_text.split('\n')`. -/
def consideredLines (pdf_text : Str) : List Str :=
  (splitLines pdf_text).take 500

/-- The stripped form of the scanned line at index `i` (default `[]`). -/
def strippedLineAt (pdf_text : Str) (i : Nat) : Str :=
  pyStrip ((consideredLines pdf_text).getD i [])

/-- `generate_simple_mindmap`: `mindmap` starts as
`[f"# {pdf_name}", ""]`, the loop over the first 500 lines appends headings
and bullets, and the result is `"\n".join(mindmap)`. -/
def generate_simple_mindmap (pdf_text pdf_name : Str) : Str :=
  joinLines ((['#', ' '] ++ pdf_name) :: [] :: simpleBody (consideredLines pdf_text) none)

/-! ## Remote outline generator (`generate_mindmap_md`, source lines 124-256) -/

/-- `max_chunk_size` (source line 142). -/
def max_chunk_size : Nat := 100000

/-- The fixed part of the prompt template before `{pdf_name}`
(source lines 147-227). -/
def promptPartA : Str :=
  "请仔细分析以下教材内容，生成一个详细完整的 Markdown 格式背诵脑图。\n\n【格式要求 - 非常重要】\n1. 必须使用标准 Markdown 标题格式：\n   - 一级标题用 # （书名）\n   - 二级标题用 ## （章节名）\n   - 三级标题用 ### （小节名）\n   - 四级标题用 #### （知识点）\n   - 五级标题用 ##### （子知识点）\n\n2. 示例格式：\n```\n# 教材名称\n\n## 第一章 章节名称\n\n### 1.1 小节名称\n\n#### 知识点1 3\n（表示这个知识点有3条要点）\n\n##### 子知识点1.1 2\n\n##### 子知识点1.2\n\n#### 知识点2 5\n\n### 1.2 小节名称\n\n#### 知识点3 4\n```\n\n【内容要求】\n1. **完整性**：必须覆盖文本中的所有章节、所有知识点，不能遗漏\n2. **详细性**：每个知识点都要列出来，包括：\n   - 概念定义\n   - 分类类型\n   - 特点特征\n   - 过程步骤\n   - 影响因素\n   - 应用意义\n3. **层次性**：\n   - 章节 → 节 → 知识点 → 子知识点，层次清晰\n   - 每个层级都要完整\n4. **标注数量规则**（非常重要，请严格遵守）：\n   - **最外层叶子节点**（没有子节点的节点）：**必须标注数字**，表示该知识点有几条要背诵的内容\n     * 示例：##### 溶解性 3  （表示溶解性有3条要背诵的内容）\n   - **中间节点**（有子节点的节点）：**默认不标注数字**\n     * 标注数字的唯一例外：当且仅当原文中有明确的条数标注时才标数字\n     * 明确的条数标注包括：\n       - 序号标注：(1)(2)(3)、（1）（2）（3）、①②③、1、2、3、一、二、三等\n       - 明确数量词：如\"有4种化学性质\"、\"包括3个方面\"、\"分为5类\"等\n     * 如果原文只是普通叙述，没有明显的序号或数量词，则中间节点不标数字\n   - 判断标准：\n     * 如果这个标题下面还有子标题（###、####、#####等），就是中间节点\n       → 检查原文是否有明确的序号或数量词，有则标数字，无则不标\n     * 如果这个标题下面没有子标题了，就是最外层叶子节点\n       → 必须标数字\n   - 完整示例：\n     ```\n     ## 第一章 氨基酸              ← 不标数字（下面有子节点）\n     ### 1.1 氨基酸的性质          ← 不标数字（下面有子节点）\n     #### 物理性质                ← 不标数字（下面有子节点）\n     ##### 溶解性 3                ← 标数字（最外层叶子节点，下面没有子节点了）\n     ##### 熔点 2                  ← 标数字（最外层叶子节点）\n     ##### 颜色 1                  ← 标数字（最外层叶子节点）\n     #### 化学性质 4               ← 可标数字（原文明确写了\"4种化学性质\"）\n     ##### 酸碱性 2                ← 标数字（最外层叶子节点）\n     ##### 成盐反应 3              ← 标数字（最外层叶子节点）\n     ##### 氧化还原反应 2          ← 标数字（最外层叶子节点）\n     ##### 缩合反应 4              ← 标数字（最外层叶子节点）\n     ```\n5. **不写答案**：只列出知识点名称和要点数量，不写具体内容\n\n【分析策略】\n1. 先识别所有章节标题\n2. 再识别每章的所有小节\n3. 然后列出每节的所有知识点\n4. 最后补充每个知识点的子知识点\n\n书名：".data

/-- The fixed part of the prompt template between `{pdf_name}` and
`{pdf_text[:max_chunk_size]}` (source lines 227-230). -/
def promptPartB : Str := "\n\n教材内容：\n".data

/-- The fixed part of the prompt template after the truncated text
(source lines 230-232). -/
def promptPartC : Str := "\n\n请严格按照上述格式生成完整详细的思维导图：".data

/-- The user prompt submitted to the remote model: the f-string of source
lines 147-232, with `{pdf_name}` and `{pdf_text[:max_chunk_size]}`
substituted. -/
def buildPrompt (pdf_name pdf_text : Str) : Str :=
  promptPartA ++ pdf_name ++ promptPartB ++ pdf_text.take max_chunk_size ++ promptPartC

/-- `generate_mindmap_md`.  The environment value of `DASHSCOPE_API_KEY`
is passed in as `api_key` (`os.getenv` returns `None` when unset); the
remote chat-completion service is the oracle `remote` mapping the submitted
user prompt to the response text.  The second component of the result
records whether a remote network call was issued: when the key is falsy the
function returns the heuristic output before the client is even
constructed; otherwise it submits the built prompt and returns the
response verbatim. -/
def generate_mindmap_md (remote : Str → Str) (api_key : Option Str)
    (pdf_text pdf_name : Str) : Str × Bool :=
  if optStrTruthy api_key then
    (remote (buildPrompt pdf_name pdf_text), true)
  else
    (generate_simple_mindmap pdf_text pdf_name, false)

/-! ## PDF Reader (`extract_pdf_text`, source lines 52-121)

A PDF document as the two extraction libraries would see it: `numPages`
pages, `primaryPageText i` the text `page.get_text()` would return for page
`i`, and `fallbackPageText i` the text `page.extract_text()` would return
(with `[]` standing for both `None` and `""`, which the code treats
identically).

The module imports of the source are only `os`, `re`, `pathlib.Path`,
`docx.Document`, `openai.OpenAI` and `dotenv.load_dotenv` (source lines
7-12), and no function-local import binds `fitz` or `pdfplumber` either.
Evaluating either name therefore raises `NameError`; the extraction
functions below embed that name lookup explicitly, guarding the code of
their bodies — which is consequently unreachable — behind it. -/

structure PdfDoc where
  numPages : Nat
  primaryPageText : Nat → Str
  fallbackPageText : Nat → Str

/-- Whether the name `fitz` is bound when `fitz.open(pdf_path)` (source
line 60) is evaluated: it is not — `fitz` is never imported. -/
def moduleBindsFitz : Bool := false

/-- Whether the name `pdfplumber` is bound when
`pdfplumber.open(pdf_path)` (source line 104) is evaluated: it is not —
`pdfplumber` is never imported. -/
def moduleBindsPdfplumber : Bool := false

/-- The exception raised by evaluating the unbound name `fitz`. -/
def fitzNameError : PyExc :=
  PyExc.exc "NameError: name 'fitz' is not defined".data

/-- The exception raised by evaluating the unbound name `pdfplumber`. -/
def pdfplumberNameError : PyExc :=
  PyExc.exc "NameError: name 'pdfplumber' is not defined".data

/-- `pages_to_process = min(max_pages, total_pages) if max_pages else
total_pages` (source lines 62 and 106) — note that `max_pages = 0` is falsy
in Python, so it selects all pages. -/
def pagesToProcess (total : Nat) (max_pages : Option Nat) : Nat :=
  match max_pages with
  | none => total
  | some m => if m = 0 then total else min m total

/-- `extract_pdf_text_pymupdf`: evaluating `fitz` on line 60 raises
`NameError`; the rest of the body (keep the page texts that are truthy and
have truthy `strip()`, joined with `"\n\n"`) is unreachable. -/
def extract_pdf_text_pymupdf (pd : PdfDoc) (max_pages : Option Nat) : Except PyExc Str :=
  if moduleBindsFitz then
    Except.ok (joinWith ['\n', '\n']
      (((List.range (pagesToProcess pd.numPages max_pages)).map pd.primaryPageText).filter
        (fun t => decide (t ≠ []) && decide (pyStrip t ≠ []))))
  else Except.error fitzNameError

/-- The `pdfplumber` fallback block of `extract_pdf_text` (source lines
100-121): evaluating `pdfplumber` on line 104 raises `NameError` before any
page range is computed or any page read; the rest (keep the truthy page
texts over the same page range, joined with `"\n\n"`) is unreachable. -/
def extract_pdf_text_pdfplumber (pd : PdfDoc) (max_pages : Option Nat) : Except PyExc Str :=
  if moduleBindsPdfplumber then
    Except.ok (joinWith ['\n', '\n']
      (((List.range (pagesToProcess pd.numPages max_pages)).map pd.fallbackPageText).filter
        (fun t => decide (t ≠ []))))
  else Except.error pdfplumberNameError

/-- `extract_pdf_text`: the `try` block calls the PyMuPDF extraction and
returns its text when `if text and len(text.strip()) > 100` holds; if the
check fails, or any exception was raised and caught by
`except Exception as e`, control falls through to the fallback block, whose
own exceptions are not caught and propagate.  The Boolean records whether
the fallback block was reached. -/
def extract_pdf_text (pd : PdfDoc) (max_pages : Option Nat) : Except PyExc (Str × Bool) :=
  match extract_pdf_text_pymupdf pd max_pages with
  | Except.ok text =>
      if text ≠ [] ∧ 100 < (pyStrip text).length then Except.ok (text, false)
      else
        match extract_pdf_text_pdfplumber pd max_pages with
        | Except.ok t => Except.ok (t, true)
        | Except.error e => Except.error e
  | Except.error _ =>
      match extract_pdf_text_pdfplumber pd max_pages with
      | Except.ok t => Except.ok (t, true)
      | Except.error e => Except.error e

/-! ## Format converter (`convert_md_to_xmind`, source lines 285-306) -/

/-- Python `pathlib` file-name stem: the name up to the last `'.'`, unless
that dot is the first or last character of the name. -/
def pyStem (name : Str) : Str :=
  match (name.reverse.takeWhile (fun c => c ≠ '.')).length with
  | after =>
      if after = name.length then name
      else
        let i := name.length - 1 - after
        if 0 < i ∧ i < name.length - 1 then name.take i else name

/-- `convert_md_to_xmind`.  The two effectful library calls are passed in
as outcomes: `mkdirOutcome` for `output_path.mkdir(exist_ok=True)` (and the
`import md2xmind` before it), which happen *before* the `try` block, and
`transOutcome` for `md2xmind.start_trans_file(...)` inside it.  The result
is `Except.error e` when an uncaught exception `e` propagates, and
otherwise `Except.ok` of the returned value (`some` path on success, `none`
when the conversion call raised and was caught). -/
def convert_md_to_xmind (mkdirOutcome : Except PyExc Unit) (transOutcome : Except PyExc Unit)
    (md_file : Str) (output_dir : Str) : Except PyExc (Option Str) :=
  match mkdirOutcome with
  | .error e => .error e
  | .ok _ =>
      match transOutcome with
      | .ok _ => .ok (some (output_dir ++ '/' :: pyStem md_file ++ ".xmind".data))
      | .error _ => .ok none

/-! ## Orchestrator (`main`, source lines 309-361)

`main` is modelled as a function producing the trace of its externally
visible effects (directory creation, the operator messages the claims
mention, Markdown writes, and conversion attempts; routine progress prints
are elided).  The input directory listing `data_dir.glob("*.docx")` is
passed in as the list of file names paired with their parsed contents, and
the environment and remote service as in `generate_mindmap_md`.  The
conversion step's own outcome does not affect the trace: `main` ignores
its return value, and a per-file exception is caught after the Markdown
write, which is the last write of the iteration. -/

inductive Effect where
  | mkdirDir (dir : Str)
  | printMsg (msg : Str)
  | writeMd (path : Str) (content : Str)
  | convertCall (mdPath : Str)
deriving DecidableEq

/-- The fixed output directory name. -/
def outputDirName : Str := "output".data

/-- The message printed when no Word document is found (source line 322). -/
def notFoundMsg : Str := "未找到 DOCX 文件".data

/-- The message printed for the number of found documents (source line 325). -/
def foundMsg (n : Nat) : Str :=
  "找到 ".data ++ (toString n).data ++ " 个 DOCX 文件".data

/-- The warning printed for a file with empty extracted text (source line 337). -/
def skipEmptyMsg : Str := "警告: DOCX 文本为空或无法提取，跳过此文件".data

/-- The path `output_dir / f"{doc_name}.md"`. -/
def mdPathFor (doc_name : Str) : Str :=
  outputDirName ++ '/' :: doc_name ++ ".md".data

/-- One iteration of the per-file loop: extract, skip when the text is
falsy or strips to length 0, otherwise generate the outline, write the
Markdown file, and attempt the conversion. -/
def processFile (api_key : Option Str) (remote : Str → Str)
    (entry : Str × DocxDocument) : List Effect :=
  let doc_text := extract_docx_text entry.2
  if doc_text = [] ∨ (pyStrip doc_text).length = 0 then
    [Effect.printMsg skipEmptyMsg]
  else
    let doc_name := pyStem entry.1
    [Effect.writeMd (mdPathFor doc_name)
       (generate_mindmap_md remote api_key doc_text doc_name).1,
     Effect.convertCall (mdPathFor doc_name)]

/-- The effect trace of `main`: create the output directory, then either
report that no Word document was found and return, or report the count and
process each file in order. -/
def mainTrace (api_key : Option Str) (remote : Str → Str)
    (docx_files : List (Str × DocxDocument)) : List Effect :=
  Effect.mkdirDir outputDirName ::
    match docx_files with
    | [] => [Effect.printMsg notFoundMsg]
    | _ :: _ =>
        Effect.printMsg (foundMsg docx_files.length) ::
          docx_files.flatMap (processFile api_key remote)

/-- Effects that write an output artifact (a Markdown file, or the
conversion step that may produce a mind-map file). -/
def isWriteEffect : Effect → Bool
  | .writeMd _ _ => true
  | .convertCall _ => true
  | _ => false

/-! ## Basic lemmas about the string model -/

theorem splitLines_ne_nil (s : Str) : splitLines s ≠ [] := by
  match s with
  | [] => simp [splitLines]
  | c :: rest =>
      rw [splitLines]
      split
      · simp
      · cases h : splitLines rest <;> simp

theorem mem_splitLines_no_nl (s : Str) : ∀ l ∈ splitLines s, '\n' ∉ l := by
  induction s with
  | nil =>
      intro l hl
      simp [splitLines] at hl
      simp [hl]
  | cons c rest ih =>
      intro l hl
      rw [splitLines] at hl
      by_cases hc : c = '\n'
      · rw [if_pos hc] at hl
        rcases List.mem_cons.mp hl with h | h
        · simp [h]
        · exact ih l h
      · rw [if_neg hc] at hl
        cases hsp : splitLines rest with
        | nil => exact absurd hsp (splitLines_ne_nil rest)
        | cons l0 ls =>
            rw [hsp] at hl
            rcases List.mem_cons.mp hl with h | h
            · subst h
              intro hmem
              rcases List.mem_cons.mp hmem with h2 | h2
              · exact hc h2.symm
              · exact ih l0 (by rw [hsp]; exact List.mem_cons_self _ _) h2
            · exact ih l (by rw [hsp]; exact List.mem_cons_of_mem _ h)

theorem splitLines_no_nl_eq (l : Str) (h : '\n' ∉ l) : splitLines l = [l] := by
  induction l with
  | nil => simp [splitLines]
  | cons c rest ih =>
      have hc : ¬(c = '\n') := fun hcc => h (by simp [hcc])
      have hrest : '\n' ∉ rest := fun hm => h (List.mem_cons_of_mem _ hm)
      rw [splitLines, if_neg hc, ih hrest]

theorem splitLines_append_nl (l r : Str) (h : '\n' ∉ l) :
    splitLines (l ++ '\n' :: r) = l :: splitLines r := by
  induction l with
  | nil => simp [splitLines]
  | cons c rest ih =>
      have hc : ¬(c = '\n') := fun hcc => h (by simp [hcc])
      have hrest : '\n' ∉ rest := fun hm => h (List.mem_cons_of_mem _ hm)
      rw [List.cons_append, splitLines, if_neg hc, ih hrest]

theorem splitLines_joinLines (ls : List Str) (hne : ls ≠ [])
    (hnl : ∀ l ∈ ls, '\n' ∉ l) : splitLines (joinLines ls) = ls := by
  induction ls with
  | nil => exact absurd rfl hne
  | cons l rest ih =>
      cases rest with
      | nil => exact splitLines_no_nl_eq l (hnl l (List.mem_cons_self _ _))
      | cons l2 rest2 =>
          rw [show joinLines (l :: l2 :: rest2) = l ++ '\n' :: joinLines (l2 :: rest2) from rfl]
          rw [splitLines_append_nl _ _ (hnl l (List.mem_cons_self _ _))]
          rw [ih (by simp) (fun x hx => hnl x (List.mem_cons_of_mem _ hx))]

theorem mem_pyStrip (s : Str) : ∀ c ∈ pyStrip s, c ∈ s := by
  intro c hc
  rw [pyStrip] at hc
  rw [List.mem_reverse] at hc
  have h1 := (List.dropWhile_sublist (l := (s.dropWhile isPyWS).reverse) isPyWS).mem hc
  rw [List.mem_reverse] at h1
  exact (List.dropWhile_sublist isPyWS).mem h1

theorem pyStrip_length_le (s : Str) : (pyStrip s).length ≤ s.length := by
  rw [pyStrip]
  calc ((s.dropWhile isPyWS).reverse.dropWhile isPyWS).reverse.length
      = ((s.dropWhile isPyWS).reverse.dropWhile isPyWS).length := List.length_reverse _
    _ ≤ (s.dropWhile isPyWS).reverse.length := (List.dropWhile_sublist _).length_le
    _ = (s.dropWhile isPyWS).length := List.length_reverse _
    _ ≤ s.length := (List.dropWhile_sublist _).length_le

/-! ## Lemmas about the heuristic loop -/

theorem matches_ne_nil (l : Str)
    (h : (matchesChapterSection l || matchesNumbered l) = true) : l ≠ [] := by
  intro heq
  subst heq
  exact absurd h (by decide)

theorem emitLine_heading (cur : Option Str) (raw : Str)
    (hm : (matchesChapterSection (pyStrip raw) || matchesNumbered (pyStrip raw)) = true)
    (hl : (pyStrip raw).length < 50) :
    emitLine cur raw = [headingMark ++ pyStrip raw] := by
  have hne : ¬(pyStrip raw = []) := matches_ne_nil _ hm
  simp only [emitLine, if_neg hne, hm, if_true, if_pos hl]

theorem emitLine_bullet (cur : Option Str) (raw : Str)
    (hm : (matchesChapterSection (pyStrip raw) || matchesNumbered (pyStrip raw)) = false)
    (hne : pyStrip raw ≠ [])
    (hl : (pyStrip raw).length < 100)
    (hcur : optStrTruthy cur = true) :
    emitLine cur raw = [bulletMark ++ pyStrip raw] := by
  simp [emitLine, if_neg hne, hm, hcur, hl]

/-- A heading-matching stripped line, shorter than 50 characters, among the
scanned lines always contributes its `"## "` heading to the loop output,
whatever `current_section` holds. -/
theorem simpleBody_heading_mem (ls : List Str) (cur : Option Str) (i : Nat)
    (hi : i < ls.length)
    (hm : (matchesChapterSection (pyStrip (ls.getD i [])) ||
            matchesNumbered (pyStrip (ls.getD i []))) = true)
    (hl : (pyStrip (ls.getD i [])).length < 50) :
    (headingMark ++ pyStrip (ls.getD i [])) ∈ simpleBody ls cur := by
  induction ls generalizing cur i with
  | nil => exact absurd hi (by simp)
  | cons raw rest ih =>
      cases i with
      | zero =>
          simp only [List.getD_cons_zero] at hm hl ⊢
          rw [simpleBody, emitLine_heading cur raw hm hl]
          exact List.mem_append_left _ (List.mem_cons_self _ _)
      | succ j =>
          simp only [List.getD_cons_succ] at hm hl ⊢
          have hj : j < rest.length := by simpa using hi
          exact List.mem_append_right _ (ih _ j hj hm hl)

/-- A stripped line that matches neither pattern, is non-empty and shorter
than 100 characters, and is reached while `current_section` is truthy,
always contributes its `"- "` bullet to the loop output. -/
theorem simpleBody_bullet_mem (ls : List Str) (cur : Option Str) (i : Nat)
    (hi : i < ls.length)
    (hm : (matchesChapterSection (pyStrip (ls.getD i [])) ||
            matchesNumbered (pyStrip (ls.getD i []))) = false)
    (hne : pyStrip (ls.getD i []) ≠ [])
    (hl : (pyStrip (ls.getD i [])).length < 100)
    (hcur : optStrTruthy (currentAfter (ls.take i) cur) = true) :
    (bulletMark ++ pyStrip (ls.getD i [])) ∈ simpleBody ls cur := by
  induction ls generalizing cur i with
  | nil => exact absurd hi (by simp)
  | cons raw rest ih =>
      cases i with
      | zero =>
          simp only [List.getD_cons_zero] at hm hne hl ⊢
          simp only [List.take_zero, currentAfter, List.foldl_nil] at hcur
          rw [simpleBody, emitLine_bullet cur raw hm hne hl hcur]
          exact List.mem_append_left _ (List.mem_cons_self _ _)
      | succ j =>
          simp only [List.getD_cons_succ] at hm hne hl ⊢
          have hj : j < rest.length := by simpa using hi
          have hcur2 : optStrTruthy (currentAfter (rest.take j) (stepCurrent cur raw)) = true := by
            simpa [currentAfter, List.take_succ_cons] using hcur
          exact List.mem_append_right _ (ih _ j hj hm hne hl hcur2)

/-- Starting from a falsy `current_section`, the loop output is either
empty or begins with a `"## "` heading (bullets need a truthy section). -/
theorem simpleBody_none_shape (ls : List Str) (cur : Option Str)
    (hcur : optStrTruthy cur = false) :
    simpleBody ls cur = [] ∨
      ∃ l rest, simpleBody ls cur = (headingMark ++ l) :: rest := by
  induction ls generalizing cur with
  | nil => exact Or.inl rfl
  | cons raw rest ih =>
      rw [simpleBody]
      by_cases hemp : pyStrip raw = []
      · have he : emitLine cur raw = [] := by simp [emitLine, hemp]
        have hs : stepCurrent cur raw = cur := by simp [stepCurrent, hemp]
        rw [he, hs, List.nil_append]
        exact ih cur hcur
      · by_cases hm : (matchesChapterSection (pyStrip raw) || matchesNumbered (pyStrip raw)) = true
        · by_cases hl : (pyStrip raw).length < 50
          · rw [emitLine_heading cur raw hm hl]
            exact Or.inr ⟨pyStrip raw, _, rfl⟩
          · have he : emitLine cur raw = [] := by
              simp only [emitLine, if_neg hemp, hm, if_true, if_neg hl]
            have hs : stepCurrent cur raw = cur := by
              simp only [stepCurrent, if_neg hemp, hm, if_true, if_neg hl]
            rw [he, hs, List.nil_append]
            exact ih cur hcur
        · have hm2 : (matchesChapterSection (pyStrip raw) || matchesNumbered (pyStrip raw)) = false :=
            by simpa using hm
          have he : emitLine cur raw = [] := by
            simp only [emitLine, if_neg hemp, hm2, Bool.false_eq_true, if_false, hcur,
              Bool.false_and, if_false]
          have hs : stepCurrent cur raw = cur := by
            simp only [stepCurrent, if_neg hemp, hm2, Bool.false_eq_true, if_false]
          rw [he, hs, List.nil_append]
          exact ih cur hcur

/-- Every line the loop emits starts with the heading or the bullet marker
followed by a stripped input line. -/
theorem simpleBody_elem_form (ls : List Str) (cur : Option Str) :
    ∀ b ∈ simpleBody ls cur,
      ∃ raw, raw ∈ ls ∧ (b = headingMark ++ pyStrip raw ∨ b = bulletMark ++ pyStrip raw) := by
  induction ls generalizing cur with
  | nil => intro b hb; exact absurd hb (by simp [simpleBody])
  | cons raw rest ih =>
      intro b hb
      rw [simpleBody] at hb
      rcases List.mem_append.mp hb with h | h
      · refine ⟨raw, List.mem_cons_self _ _, ?_⟩
        rw [emitLine] at h
        split at h
        · exact absurd h (by simp)
        · split at h
          · split at h
            · exact Or.inl (by simpa using h)
            · exact absurd h (by simp)
          · split at h
            · exact Or.inr (by simpa using h)
            · exact absurd h (by simp)
      · rcases ih (stepCurrent cur raw) b h with ⟨r, hr, hform⟩
        exact ⟨r, List.mem_cons_of_mem _ hr, hform⟩

/-- The emitted body lines contain no newline when the scanned lines
contain none. -/
theorem simpleBody_no_nl (ls : List Str) (cur : Option Str)
    (hnl : ∀ raw ∈ ls, '\n' ∉ raw) :
    ∀ b ∈ simpleBody ls cur, '\n' ∉ b := by
  intro b hb
  rcases simpleBody_elem_form ls cur b hb with ⟨raw, hraw, hform⟩
  have hraw2 : '\n' ∉ pyStrip raw := fun hm => hnl raw hraw (mem_pyStrip raw _ hm)
  rcases hform with h | h <;> subst h <;> intro hm <;>
    rcases List.mem_append.mp hm with h2 | h2
  · exact absurd h2 (by decide)
  · exact hraw2 h2
  · exact absurd h2 (by decide)
  · exact hraw2 h2

/-- Structure of the heuristic output, split back into lines: the title
line, an empty line, and the loop body, provided the title contains no
newline. -/
theorem generate_simple_mindmap_lines (pdf_text pdf_name : Str)
    (h : '\n' ∉ pdf_name) :
    splitLines (generate_simple_mindmap pdf_text pdf_name) =
      (['#', ' '] ++ pdf_name) :: [] :: simpleBody (consideredLines pdf_text) none := by
  rw [generate_simple_mindmap]
  apply splitLines_joinLines
  · simp
  · intro l hl
    rcases List.mem_cons.mp hl with h1 | h1
    · subst h1
      intro hm
      rcases List.mem_append.mp hm with h2 | h2
      · exact absurd h2 (by decide)
      · exact h h2
    · rcases List.mem_cons.mp h1 with h2 | h2
      · simp [h2]
      · refine simpleBody_no_nl _ _ ?_ l h2
        intro raw hraw
        exact mem_splitLines_no_nl pdf_text raw (List.take_subset _ _ hraw)

/-- Every kept paragraph or cell text is non-empty (it survived the
`if text:` filter). -/
theorem kept_ne_nil (doc : DocxDocument) :
    ∀ t ∈ keptParagraphs doc ++ keptCells doc, t ≠ [] := by
  intro t ht
  rcases List.mem_append.mp ht with h | h
  · exact of_decide_eq_true (List.mem_filter.mp h).2
  · exact of_decide_eq_true (List.mem_filter.mp h).2

/-- With a falsy key, `generate_mindmap_md` is the heuristic output and no
network call is made. -/
theorem generate_mindmap_md_of_falsy (remote : Str → Str) (api_key : Option Str)
    (pdf_text pdf_name : Str) (h : optStrTruthy api_key = false) :
    generate_mindmap_md remote api_key pdf_text pdf_name =
      (generate_simple_mindmap pdf_text pdf_name, false) := by
  simp [generate_mindmap_md, h]

/-! ## Claim C1 -/

/-- C1 (counterexample): the claim fails for a Word document whose single
table cell text contains an embedded newline (as `python-docx` produces for
a multi-paragraph cell): the extracted text then has 2 non-empty lines,
not N+M = 1, and no line equals the stripped cell text. -/
theorem C1_counterexample :
    nonEmptyLines (extract_docx_text ⟨[], [[[['a', '\n', 'b']]]]⟩) ≠
      keptParagraphs ⟨[], [[[['a', '\n', 'b']]]]⟩ ++ keptCells ⟨[], [[[['a', '\n', 'b']]]]⟩ := by
  decide

/-- C1 (corrected): for every Word document whose stripped kept paragraph
and table cell texts contain no newline character, `extract_docx_text`
returns a string whose non-empty lines are exactly the N stripped non-empty
paragraph texts followed by the M stripped non-empty table cell texts,
N+M lines in total, paragraphs before cells, each group in original
document (table/row/cell) order. -/
theorem C1_corrected (doc : DocxDocument)
    (h : ∀ t ∈ keptParagraphs doc ++ keptCells doc, '\n' ∉ t) :
    nonEmptyLines (extract_docx_text doc) = keptParagraphs doc ++ keptCells doc := by
  have hne := kept_ne_nil doc
  rw [nonEmptyLines, extract_docx_text]
  cases hL : keptParagraphs doc ++ keptCells doc with
  | nil => decide
  | cons k ks =>
      rw [splitLines_joinLines _ (by simp) (fun l hl => h l (by rw [hL]; exact hl))]
      exact List.filter_eq_self.mpr
        (fun a ha => decide_eq_true (hne a (by rw [hL]; exact ha)))

/-- C1 (witness): a document with one paragraph and one table cell. -/
theorem C1_witness :
    nonEmptyLines (extract_docx_text ⟨[[' ', 'a']], [[[['b']]]]⟩) =
      keptParagraphs ⟨[[' ', 'a']], [[[['b']]]]⟩ ++ keptCells ⟨[[' ', 'a']], [[[['b']]]]⟩ :=
  C1_corrected ⟨[[' ', 'a']], [[[['b']]]]⟩ (by decide)

/-! ## Claim C2 -/

/-- The input of the C2 counterexample: a heading line, then a line that
matches `^\d+[.、]`, is 50 characters long (so not a heading) and under 100
characters. -/
def c2badText : Str := "第一章\n1、".data ++ List.replicate 48 'a'

/-- The second line of `c2badText`. -/
def c2badLine : Str := "1、".data ++ List.replicate 48 'a'

/-- C2 (counterexample): in `generate_simple_mindmap` applied to
`c2badText`, the heading `## 第一章` is emitted, and the following
non-empty 50-character line — which follows an already-emitted heading and
is under 100 characters — is NOT emitted as a `- ` bullet (it matches a
chapter pattern, so the `elif` bullet branch is never reached, and at 50
characters it is not a heading either). -/
theorem C2_counterexample :
    (headingMark ++ "第一章".data) ∈ splitLines (generate_simple_mindmap c2badText ['T'])
    ∧ c2badLine ≠ []
    ∧ c2badLine.length < 100
    ∧ (bulletMark ++ c2badLine) ∉ splitLines (generate_simple_mindmap c2badText ['T']) := by
  decide

/-- C2 (corrected): among the first 500 lines of the input, a stripped
line matching `^第[一二三四五六七八九十\d]+[章节]` or `^\d+[.、]` and shorter
than 50 characters is emitted as a `## ` heading, and every non-empty
stripped line under 100 characters that does NOT match those patterns and
is reached while a heading has already been emitted (`current_section` is
truthy) is emitted as a `- ` bullet under it. -/
theorem C2_corrected (pdf_text : Str) (i : Nat)
    (hi : i < (consideredLines pdf_text).length) :
    ((matchesChapterSection (strippedLineAt pdf_text i) ||
        matchesNumbered (strippedLineAt pdf_text i)) = true →
      (strippedLineAt pdf_text i).length < 50 →
      (headingMark ++ strippedLineAt pdf_text i) ∈ simpleBody (consideredLines pdf_text) none)
    ∧ ((matchesChapterSection (strippedLineAt pdf_text i) ||
          matchesNumbered (strippedLineAt pdf_text i)) = false →
        strippedLineAt pdf_text i ≠ [] →
        (strippedLineAt pdf_text i).length < 100 →
        optStrTruthy (currentAfter ((consideredLines pdf_text).take i) none) = true →
        (bulletMark ++ strippedLineAt pdf_text i) ∈ simpleBody (consideredLines pdf_text) none) := by
  constructor
  · intro hm hl
    exact simpleBody_heading_mem _ none i hi hm hl
  · intro hm hne hl hcur
    exact simpleBody_bullet_mem _ none i hi hm hne hl hcur

/-- The input of the C2 witness. -/
def c2wText : Str := "第一章 绪论\n这是简介".data

/-- C2 (witness): in `c2wText`, line 1 follows the heading emitted for
line 0 and is emitted as a bullet. -/
theorem C2_witness :
    (bulletMark ++ strippedLineAt c2wText 1) ∈ simpleBody (consideredLines c2wText) none :=
  (C2_corrected c2wText 1 (by decide)).2 (by decide) (by decide) (by decide) (by decide)

/-! ## Claim C3 -/

/-- C3 (confirmed): if `DASHSCOPE_API_KEY` is unset (`none`) or empty
(`some ""`, both falsy), `generate_mindmap_md` performs no remote call (the
call flag is `false` — the branch returns before the client is built) and
returns exactly `generate_simple_mindmap` on the same text and title. -/
theorem C3_confirmed (remote : Str → Str) (api_key : Option Str)
    (pdf_text pdf_name : Str) (h : optStrTruthy api_key = false) :
    generate_mindmap_md remote api_key pdf_text pdf_name =
      (generate_simple_mindmap pdf_text pdf_name, false) :=
  generate_mindmap_md_of_falsy remote api_key pdf_text pdf_name h

/-- C3 (witness): with the key unset. -/
theorem C3_witness :
    generate_mindmap_md (fun s => s) none "第一章\nabc".data ['t'] =
      (generate_simple_mindmap "第一章\nabc".data ['t'], false) :=
  C3_confirmed (fun s => s) none "第一章\nabc".data ['t'] (by decide)

/-! ## Claim C4 -/

/-- C4 (code_bug): the claimed fallback policy is the evident intent of
`extract_pdf_text` — its docstring says it prefers PyMuPDF, the fallback
block's prints name pdfplumber, and the code's control structure implements
exactly the claimed switch — but the module never imports `fitz` or
`pdfplumber`, so for every PDF document and every `max_pages` the primary
extraction raises `NameError` at `fitz.open` (caught by the
`except Exception` on line 95), the fallback block then raises `NameError`
at `pdfplumber.open` before computing any page range or reading any page,
and that exception propagates: `extract_pdf_text` never returns a result
for any input. -/
theorem C4_code_bug (pd : PdfDoc) (mp : Option Nat) :
    extract_pdf_text_pymupdf pd mp = Except.error fitzNameError
    ∧ extract_pdf_text pd mp = Except.error pdfplumberNameError :=
  ⟨rfl, rfl⟩

/-! ## Claim C5 -/

/-- C5 (counterexample): an exception raised by
`output_path.mkdir(exist_ok=True)` — which the function runs BEFORE the
`try` block — propagates out of `convert_md_to_xmind` instead of being
caught and turned into `None`. -/
theorem C5_counterexample :
    convert_md_to_xmind (Except.error (PyExc.exc "mkdir failed".data)) (Except.ok ())
        "a.md".data outputDirName = Except.error (PyExc.exc "mkdir failed".data)
    ∧ convert_md_to_xmind (Except.error (PyExc.exc "mkdir failed".data)) (Except.ok ())
        "a.md".data outputDirName ≠ Except.ok none :=
  ⟨rfl, fun h => nomatch h⟩

/-- C5 (corrected): an exception raised by the `md2xmind` conversion call
inside the `try` block is caught and `None` is returned instead of
propagating; but an exception raised before the `try` block (module import
or output-directory creation) propagates to the caller. -/
theorem C5_corrected (mkdirOutcome transOutcome : Except PyExc Unit)
    (md_file output_dir : Str) :
    (∀ e, mkdirOutcome = Except.ok () → transOutcome = Except.error e →
        convert_md_to_xmind mkdirOutcome transOutcome md_file output_dir = Except.ok none)
    ∧ (∀ e, mkdirOutcome = Except.error e →
        convert_md_to_xmind mkdirOutcome transOutcome md_file output_dir = Except.error e) := by
  constructor
  · intro e hm ht
    subst hm
    subst ht
    rfl
  · intro e hm
    subst hm
    rfl

/-- C5 (witness): a failing conversion call yields `None` without an
exception escaping. -/
theorem C5_witness :
    convert_md_to_xmind (Except.ok ()) (Except.error (PyExc.exc "boom".data))
        "report.md".data outputDirName = Except.ok none :=
  (C5_corrected (Except.ok ()) (Except.error (PyExc.exc "boom".data))
    "report.md".data outputDirName).1 (PyExc.exc "boom".data) rfl rfl

/-! ## Claim C6 -/

/-- C6 (confirmed): with a credential present, the submitted prompt embeds
exactly the first `max_chunk_size = 100000` characters of the input text
into the fixed template, and characters beyond that budget never influence
the prompt or the call: two texts agreeing on their first 100000 characters
produce identical outcomes. -/
theorem C6_confirmed (remote : Str → Str) (api_key : Option Str)
    (pdf_name pdf_text pdf_text2 : Str)
    (hk : optStrTruthy api_key = true)
    (h : pdf_text.take max_chunk_size = pdf_text2.take max_chunk_size) :
    max_chunk_size = 100000
    ∧ generate_mindmap_md remote api_key pdf_text pdf_name =
        (remote (buildPrompt pdf_name pdf_text), true)
    ∧ buildPrompt pdf_name pdf_text =
        promptPartA ++ pdf_name ++ promptPartB ++ pdf_text.take max_chunk_size ++ promptPartC
    ∧ generate_mindmap_md remote api_key pdf_text pdf_name =
        generate_mindmap_md remote api_key pdf_text2 pdf_name := by
  refine ⟨rfl, by simp [generate_mindmap_md, hk], rfl, ?_⟩
  simp [generate_mindmap_md, hk, buildPrompt, h]

/-- C6 (witness): two texts of length 100001 differing only in their last
character yield the same remote call. -/
theorem C6_witness :
    generate_mindmap_md (fun s => s) (some ['k'])
        (List.replicate max_chunk_size 'a' ++ ['b']) ['t'] =
      generate_mindmap_md (fun s => s) (some ['k'])
        (List.replicate max_chunk_size 'a' ++ ['c']) ['t'] :=
  (C6_confirmed (fun s => s) (some ['k']) ['t']
    (List.replicate max_chunk_size 'a' ++ ['b'])
    (List.replicate max_chunk_size 'a' ++ ['c'])
    (by decide)
    (by rw [List.take_left' (by simp), List.take_left' (by simp)])).2.2.2

/-! ## Claim C7 -/

/-- C7 (confirmed): `generate_simple_mindmap` never considers lines beyond
index 500: any two input texts whose first 500 lines are equal produce
equal outputs for the same title. -/
theorem C7_confirmed (t1 t2 pdf_name : Str)
    (h : (splitLines t1).take 500 = (splitLines t2).take 500) :
    generate_simple_mindmap t1 pdf_name = generate_simple_mindmap t2 pdf_name := by
  rw [generate_simple_mindmap, generate_simple_mindmap, consideredLines, consideredLines, h]

/-- First witness text: 500 empty lines, then `"x"` on line 501. -/
def c7t1 : Str := List.replicate 500 '\n' ++ ['x']

/-- Second witness text: 500 empty lines, then `"y"` on line 501. -/
def c7t2 : Str := List.replicate 500 '\n' ++ ['y']

set_option maxRecDepth 100000 in
/-- C7 (witness): two different texts agreeing on their first 500 lines. -/
theorem C7_witness :
    generate_simple_mindmap c7t1 ['T'] = generate_simple_mindmap c7t2 ['T'] :=
  C7_confirmed c7t1 c7t2 ['T'] (by decide)

/-! ## Claim C8 -/

/-- The Word document of the end-to-end scenario: two paragraphs, no
tables. -/
def c8doc : DocxDocument := ⟨["第一章 绪论".data, "这是简介".data], []⟩

/-- Its extracted text. -/
def c8text : Str := extract_docx_text c8doc

/-- C8 (confirmed): with no credential set, running `main` on a directory
containing one Word document with paragraphs `["第一章 绪论", "这是简介"]`
writes a Markdown file whose lines are exactly `# <stem>`, an empty line,
the heading `## 第一章 绪论`, and the immediately following bullet
`- 这是简介` (for any file name whose stem contains no newline). -/
theorem C8_confirmed (remote : Str → Str) (api_key : Option Str) (fname : Str)
    (hkey : optStrTruthy api_key = false) (hs : '\n' ∉ pyStem fname) :
    Effect.writeMd (mdPathFor (pyStem fname))
        (generate_simple_mindmap c8text (pyStem fname))
      ∈ mainTrace api_key remote [(fname, c8doc)]
    ∧ splitLines (generate_simple_mindmap c8text (pyStem fname)) =
        (['#', ' '] ++ pyStem fname) :: [] ::
          "## 第一章 绪论".data :: "- 这是简介".data :: [] := by
  constructor
  · have hcond : ¬(extract_docx_text c8doc = [] ∨
        (pyStrip (extract_docx_text c8doc)).length = 0) := by decide
    have hmd := generate_mindmap_md_of_falsy remote api_key
      (extract_docx_text c8doc) (pyStem fname) hkey
    rw [mainTrace]
    simp only [List.flatMap_cons, List.flatMap_nil, List.append_nil, processFile, hcond,
      if_false, hmd, c8text]
    simp
  · have hbody : simpleBody (consideredLines c8text) none =
        ["## 第一章 绪论".data, "- 这是简介".data] := by decide
    rw [generate_simple_mindmap_lines c8text (pyStem fname) hs, hbody]

/-- C8 (witness): the scenario at the concrete file name `报告.docx`. -/
theorem C8_witness :
    Effect.writeMd (mdPathFor (pyStem "报告.docx".data))
        (generate_simple_mindmap c8text (pyStem "报告.docx".data))
      ∈ mainTrace none (fun s => s) [("报告.docx".data, c8doc)]
    ∧ splitLines (generate_simple_mindmap c8text (pyStem "报告.docx".data)) =
        (['#', ' '] ++ pyStem "报告.docx".data) :: [] ::
          "## 第一章 绪论".data :: "- 这是简介".data :: [] :=
  C8_confirmed (fun s => s) none "报告.docx".data (by decide) (by decide)

/-! ## Claim C9 -/

/-- C9 (confirmed): with zero Word documents, `main` creates the output
directory, reports that none were found, and returns immediately: the
trace holds no further effect — in particular no Markdown write and no
conversion attempt — and `main` terminates normally (it is a total
function). -/
theorem C9_confirmed (api_key : Option Str) (remote : Str → Str) :
    mainTrace api_key remote [] =
      [Effect.mkdirDir outputDirName, Effect.printMsg notFoundMsg]
    ∧ (mainTrace api_key remote []).filter isWriteEffect = []
    ∧ Effect.printMsg notFoundMsg ∈ mainTrace api_key remote [] := by
  refine ⟨rfl, rfl, ?_⟩
  simp [mainTrace]

/-! ## Claim C10 -/

/-- The title of the C10 counterexample, containing a newline. -/
def c10badTitle : Str := ['a', '\n', 'b']

/-- C10 (counterexample): for a title containing a newline, the first two
output lines are not `# <title>` and an empty line. -/
theorem C10_counterexample :
    (splitLines (generate_simple_mindmap [] c10badTitle)).take 2 ≠
      [['#', ' '] ++ c10badTitle, []] := by
  decide

/-- C10 (corrected): for every input text and every title containing no
newline, the first two output lines of `generate_simple_mindmap` are
`# <title>` and an empty line, and no `- ` bullet line appears before the
first `## ` heading line: every line starting with `"- "` is preceded by a
line starting with `"## "`. -/
theorem C10_corrected (pdf_text pdf_name : Str) (h : '\n' ∉ pdf_name) :
    (splitLines (generate_simple_mindmap pdf_text pdf_name)).take 2 =
      [['#', ' '] ++ pdf_name, []]
    ∧ ∀ i : Nat,
        bulletMark.isPrefixOf
            ((splitLines (generate_simple_mindmap pdf_text pdf_name)).getD i []) = true →
        ∃ j : Nat, j < i ∧
          headingMark.isPrefixOf
            ((splitLines (generate_simple_mindmap pdf_text pdf_name)).getD j []) = true := by
  have hlines := generate_simple_mindmap_lines pdf_text pdf_name h
  constructor
  · rw [hlines]
    rfl
  · intro i hi
    rw [hlines] at hi ⊢
    match i, hi with
    | 0, hi =>
        exact absurd hi (by simp [List.isPrefixOf, bulletMark])
    | 1, hi =>
        exact absurd hi (by simp [List.isPrefixOf, bulletMark])
    | (k + 2), hi =>
        simp only [List.getD_cons_succ] at hi
        rcases simpleBody_none_shape (consideredLines pdf_text) none rfl with hb | ⟨l, rest, hb⟩
        · rw [hb] at hi
          exact absurd hi (by cases k <;> simp [List.isPrefixOf, bulletMark, List.getD])
        · cases k with
          | zero =>
              rw [hb] at hi
              simp only [List.getD_cons_zero] at hi
              exact absurd hi (by simp [List.isPrefixOf, bulletMark, headingMark])
          | succ k2 =>
              refine ⟨2, by omega, ?_⟩
              simp only [List.getD_cons_succ, hb, List.getD_cons_zero]
              simp [List.isPrefixOf, headingMark]

/-- C10 (witness): a concrete text and newline-free title. -/
theorem C10_witness :
    (splitLines (generate_simple_mindmap "第一章 绪论\n这是简介".data "书".data)).take 2 =
      [['#', ' '] ++ "书".data, []] :=
  (C10_corrected "第一章 绪论\n这是简介".data "书".data (by decide)).1

end DocxToMindmap
